import Mathlib

/-!
Shallow embedding of the blunder-detection core of the GameOfThrows
repository (src/src/modules/blunder_detection/blunder_detection.py and its
caller src/src/modules/database/queries.py), together with proofs settling
the specification claims about it.

Numeric modelling: Python floats are idealised as exact rationals where the
code only does field arithmetic and comparisons, and as real numbers where
the logistic transform (math.exp) is involved.  The chess library is not
re-implemented: board states, SAN parsing and the engine are abstracted as
parameters (a board type, a stepping function that may fail, and an
evaluation oracle), exactly at the boundaries where the Python code calls
into python-chess / Stockfish.
-/

namespace GameOfThrows

/-- The colour strings "White" / "Black" used by process_game_for_analysis. -/
inductive Player where
  | white
  | black
deriving DecidableEq, Repr

/-- The dictionary returned by BlunderDetection.get_stockfish_evaluation_local:
keys eval, mate_in, is_mate, bestmove (blunder_detection.py lines 38-50). -/
structure LocalEvalData where
  eval : ℚ
  mate_in : Option ℕ
  is_mate : Bool
  bestmove : Option String
deriving DecidableEq, Repr

/-- The relative score read back from the engine (info["score"].relative):
either a forced-mate count (sign encodes direction) or a centipawn score. -/
inductive EngineScore where
  | mate (m : ℤ)
  | cp (c : ℤ)
deriving DecidableEq, Repr

/-- The mate sentinel of blunder_detection.py lines 33-36:
mate_value = 10.0 + 10.0 / max(1, abs(score.mate())), negated when
score.mate() < 0. -/
def mate_value (m : ℤ) : ℚ :=
  let v : ℚ := 10 + 10 / ((max 1 |m| : ℤ) : ℚ)
  if m < 0 then -v else v

/-- The normalisation performed by get_stockfish_evaluation_local (lines
32-50) on the score read from the engine, with the best move already
extracted from the principal variation. -/
def get_stockfish_evaluation_local (score : EngineScore) (bestmove : Option String) :
    LocalEvalData :=
  match score with
  | .mate m =>
      { eval := mate_value m
        mate_in := some m.natAbs
        is_mate := true
        bestmove := bestmove }
  | .cp c =>
      { eval := (c : ℚ) / 100
        mate_in := none
        is_mate := false
        bestmove := bestmove }

/-- BlunderDetection.eval_to_win_probability (lines 84-90): None is mapped
to 0.5, a numeric score s to 1 / (1 + exp(-0.00368208 * s * 100)). -/
noncomputable def eval_to_win_probability (eval_score : Option ℝ) : ℝ :=
  match eval_score with
  | none => 0.5
  | some s => 1 / (1 + Real.exp (-0.00368208 * s * 100))

/-- The fixed threshold table of spec section 4.4, written on an explicit
delta; it mirrors the fallback chain of classify_move (lines 122-133). -/
noncomputable def win_prob_delta_table (delta : ℝ) : String :=
  if delta ≤ 0 then "Best"
  else if 0 < delta ∧ delta ≤ 0.02 then "Excellent"
  else if 0.02 < delta ∧ delta ≤ 0.05 then "Good"
  else if 0.05 < delta ∧ delta ≤ 0.10 then "Inaccuracy"
  else if 0.10 < delta ∧ delta ≤ 0.20 then "Mistake"
  else "Blunder"

/-- BlunderDetection.classify_move (lines 92-133): mate-transition branches
first, then the win-probability-change chain. -/
noncomputable def classify_move (current_eval previous_eval : ℚ)
    (current_is_mate previous_is_mate : Bool) : String :=
  if current_is_mate && !previous_is_mate then
    if current_eval > 0 then "Best" else "Blunder"
  else if previous_is_mate && !current_is_mate then
    if previous_eval > 0 then "Blunder" else "Best"
  else
    let current_win_prob := eval_to_win_probability (some (current_eval : ℝ))
    let previous_win_prob := eval_to_win_probability (some (previous_eval : ℝ))
    let win_prob_change := previous_win_prob - current_win_prob
    if win_prob_change ≤ 0 then "Best"
    else if 0 < win_prob_change ∧ win_prob_change ≤ 0.02 then "Excellent"
    else if 0.02 < win_prob_change ∧ win_prob_change ≤ 0.05 then "Good"
    else if 0.05 < win_prob_change ∧ win_prob_change ≤ 0.10 then "Inaccuracy"
    else if 0.10 < win_prob_change ∧ win_prob_change ≤ 0.20 then "Mistake"
    else "Blunder"

/-- BlunderDetection.convert_moves_to_positions applies moves in order and
stops (break) at the first move the board cannot parse or apply; board
states and SAN parsing are abstracted by the board type B and the stepping
function, whose failure stands for the ValueError of lines 153-156.  This
is the loop body: the list of positions recorded after each applied move. -/
def applyMoves {B : Type} (step : B → String → Option B) : B → List String → List B
  | _, [] => []
  | b, move_str :: rest =>
    match step b move_str with
    | none => []
    | some b2 => b2 :: applyMoves step b2 rest

/-- BlunderDetection.convert_moves_to_positions (lines 135-158): the initial
position followed by the positions produced before the first failure. -/
def convert_moves_to_positions {B : Type} (step : B → String → Option B)
    (b0 : B) (moves_list : List String) : List B :=
  b0 :: applyMoves step b0 moves_list

/-- One entry of the list built by process_game_for_analysis (lines 160-180);
the source stores the same move text under two keys, modelled once here. -/
structure PosInfo (B : Type) where
  move_number : ℕ
  move_played : String
  player : Player
  fen : B
deriving DecidableEq, Repr

/-- BlunderDetection.process_game_for_analysis (lines 160-180): skip the
initial position and tag each later position with 1-based index data. -/
def process_game_for_analysis {B : Type} (step : B → String → Option B)
    (b0 : B) (moves_list : List String) : List (PosInfo B) :=
  let positions := convert_moves_to_positions step b0 moves_list
  (positions.drop 1).enum.map fun q =>
    let i := q.1 + 1
    { move_number := (i + 1) / 2
      move_played := moves_list.getD (i - 1) ""
      player := if i % 2 = 1 then Player.white else Player.black
      fen := q.2 }

/-- The per-ply record produced by analyze_game_for_blunders: the position
dictionary of process_game_for_analysis after the analysis loop has added
eval, bestmove, is_mate, eval_change and move_class (lines 195-214). -/
structure MoveRec (B : Type) where
  move_number : ℕ
  move_played : String
  player : Player
  fen : B
  eval : ℚ
  bestmove : Option String
  is_mate : Bool
  eval_change : ℚ
  move_class : String
deriving DecidableEq, Repr

/-- The loop of analyze_game_for_blunders (lines 188-216), with the carried
state made explicit: previous_eval starts at 0, previous_is_mate is read
from the record written in the preceding iteration, and is_first tells the
i = 0 iteration (labelled Opening) from the rest.  A failing evaluation
aborts the whole call with none (lines 191-193). -/
noncomputable def analyzeLoop {B : Type} (ev : B → Option LocalEvalData) :
    List (PosInfo B) → ℚ → Bool → Bool → Option (List (MoveRec B))
  | [], _, _, _ => some []
  | q :: rest, previous_eval, previous_is_mate, is_first =>
    match ev q.fen with
    | none => none
    | some eval_data =>
      let current_eval := if q.player = Player.black then -eval_data.eval else eval_data.eval
      let record : MoveRec B :=
        { move_number := q.move_number
          move_played := q.move_played
          player := q.player
          fen := q.fen
          eval := current_eval
          bestmove := eval_data.bestmove
          is_mate := eval_data.is_mate
          eval_change := if is_first then 0 else previous_eval - current_eval
          move_class := if is_first then "Opening"
            else classify_move current_eval previous_eval eval_data.is_mate previous_is_mate }
      match analyzeLoop ev rest current_eval eval_data.is_mate false with
      | none => none
      | some rest_records => some (record :: rest_records)

/-- BlunderDetection.analyze_game_for_blunders (lines 182-218), generic over
the board model and the evaluation oracle standing for
get_stockfish_evaluation_local applied to a FEN. -/
noncomputable def analyze_game_for_blunders {B : Type} (step : B → String → Option B)
    (b0 : B) (ev : B → Option LocalEvalData) (moves_list : List String) :
    Option (List (MoveRec B)) :=
  analyzeLoop ev (process_game_for_analysis step b0 moves_list) 0 false true

/-- Modelled from the spec: the local-engine strategy reads
info["score"].relative, the score from the perspective of the side to move
in the evaluated position.  A position recorded for a ply arises after the
mover's move, so the side to move there is the mover's opponent, and the
score from the mover's perspective is the negation of the relative score. -/
def mover_perspective (relative_score : ℚ) : ℚ := -relative_score

/-- The JSON payload of the remote service as read by
get_stockfish_evaluation (lines 66-73): success flag, optional evaluation
and mate fields, optional bestmove text. -/
structure ApiResponse where
  success : Bool
  evaluation : Option ℚ
  mate : Option ℤ
  bestmove : Option String
deriving DecidableEq, Repr

/-- Worker for pySplit: walk the characters, collecting the current token
in reverse; a space closes the token, empty tokens are dropped. -/
def pySplitChars : List Char → List Char → List String
  | [], cur => if cur.isEmpty then [] else [String.mk cur.reverse]
  | c :: rest, cur =>
    if c = ' ' then
      if cur.isEmpty then pySplitChars rest []
      else String.mk cur.reverse :: pySplitChars rest []
    else pySplitChars rest (c :: cur)

/-- Python str.split(): split on whitespace and drop empty pieces
(whitespace modelled as the space character). -/
def pySplit (s : String) : List String :=
  pySplitChars s.toList []

/-- The dictionary returned by the remote strategy on success (lines 69-73):
keys eval, mate_in, bestmove -- and no is_mate key. -/
structure RemoteEvalData where
  eval : ℚ
  mate_in : Option ℤ
  bestmove : String
deriving DecidableEq, Repr

/-- BlunderDetection.get_stockfish_evaluation (lines 52-82).  none on the
request side stands for a request error, non-200 status or malformed JSON;
a parsed payload with success false, or a bestmove field whose second
whitespace token does not exist (IndexError, caught at line 80), also
yields None.  On success the evaluation field defaults to 0 when absent. -/
def get_stockfish_evaluation (response : Option ApiResponse) : Option RemoteEvalData :=
  match response with
  | none => none
  | some data =>
    if data.success then
      match (pySplit (data.bestmove.getD "")).get? 1 with
      | none => none
      | some bm =>
          some { eval := data.evaluation.getD 0
                 mate_in := data.mate
                 bestmove := bm }
    else none

/-- Python values that can sit in the two evaluation dictionaries. -/
inductive PyVal where
  | num (q : ℚ)
  | str (s : String)
  | bool (b : Bool)
  | pyNone
deriving DecidableEq, Repr

/-- Optional string as a Python dictionary value. -/
def optStr : Option String → PyVal
  | none => PyVal.pyNone
  | some s => PyVal.str s

/-- The local strategy's result viewed as the Python dictionary literal of
lines 38-50: its keys in source order with their values. -/
def local_eval_dict (d : LocalEvalData) : List (String × PyVal) :=
  [ ( "eval", PyVal.num d.eval ),
    ( "mate_in", match d.mate_in with | none => PyVal.pyNone | some n => PyVal.num n ),
    ( "is_mate", PyVal.bool d.is_mate ),
    ( "bestmove", optStr d.bestmove ) ]

/-- The remote strategy's result viewed as the Python dictionary literal of
lines 69-73: its keys in source order with their values. -/
def remote_eval_dict (r : RemoteEvalData) : List (String × PyVal) :=
  [ ( "eval", PyVal.num r.eval ),
    ( "mate_in", match r.mate_in with | none => PyVal.pyNone | some n => PyVal.num n ),
    ( "bestmove", PyVal.str r.bestmove ) ]

/-! ## Helper lemmas on the win-probability model -/

/-- On a defined score the model is the logistic with slope 0.368208. -/
theorem eval_to_win_probability_some (s : ℝ) :
    eval_to_win_probability (some s) = 1 / (1 + Real.exp (-(0.368208 * s))) := by
  have h : (-0.00368208 : ℝ) * s * 100 = -(0.368208 * s) := by ring_nf
  simp only [eval_to_win_probability, h]

theorem win_prob_denom_pos (x : ℝ) : 0 < 1 + Real.exp x := by
  linarith [Real.exp_pos x]

theorem win_prob_pos (s : ℝ) : 0 < eval_to_win_probability (some s) := by
  rw [eval_to_win_probability_some]
  exact div_pos one_pos (win_prob_denom_pos _)

theorem win_prob_lt_one (s : ℝ) : eval_to_win_probability (some s) < 1 := by
  rw [eval_to_win_probability_some]
  rw [div_lt_one (win_prob_denom_pos _)]
  linarith [Real.exp_pos (-(0.368208 * s))]

theorem win_prob_zero : eval_to_win_probability (some 0) = 1 / 2 := by
  rw [eval_to_win_probability_some]
  norm_num

theorem win_prob_strictMono :
    StrictMono (fun s : ℝ => eval_to_win_probability (some s)) := by
  intro a b hab
  simp only [eval_to_win_probability_some]
  have ha : 0 < 1 + Real.exp (-(0.368208 * a)) := win_prob_denom_pos _
  have hb : 0 < 1 + Real.exp (-(0.368208 * b)) := win_prob_denom_pos _
  rw [div_lt_div_iff₀ ha hb, one_mul, one_mul]
  have h : -(0.368208 * b) < -(0.368208 * a) := by nlinarith
  linarith [Real.exp_lt_exp_of_lt h]

theorem win_prob_gt_half {s : ℝ} (hs : 0 < s) :
    1 / 2 < eval_to_win_probability (some s) := by
  have h := win_prob_strictMono hs
  simp only [win_prob_zero] at h
  exact h

theorem win_prob_lt_half {s : ℝ} (hs : s < 0) :
    eval_to_win_probability (some s) < 1 / 2 := by
  have h := win_prob_strictMono hs
  simp only [win_prob_zero] at h
  exact h

/-! ## Claim C9 -/

/-- C9: for every finite non-mate pawn-unit score s, the win-probability
model equals the logistic 1 / (1 + exp(-0.368208 s)), is exactly 0.5 at
s = 0, is strictly increasing in s, and lies strictly inside (0, 1). -/
theorem win_probability_logistic_properties (s : ℝ) :
    eval_to_win_probability (some s) = 1 / (1 + Real.exp (-(0.368208 * s))) ∧
    eval_to_win_probability (some 0) = 1 / 2 ∧
    StrictMono (fun t : ℝ => eval_to_win_probability (some t)) ∧
    0 < eval_to_win_probability (some s) ∧
    eval_to_win_probability (some s) < 1 :=
  ⟨eval_to_win_probability_some s, win_prob_zero, win_prob_strictMono,
    win_prob_pos s, win_prob_lt_one s⟩

/-! ## Helper lemmas on the mate sentinel -/

theorem mate_value_eq {m : ℤ} (hm : 1 ≤ m) : mate_value m = 10 + 10 / (m : ℚ) := by
  have h0 : ¬ m < 0 := by omega
  have hmax : max 1 |m| = m := by
    rw [abs_of_nonneg (by omega : (0 : ℤ) ≤ m)]
    exact max_eq_right hm
  simp only [mate_value, hmax, if_neg h0]

theorem mate_value_neg_eq {m : ℤ} (hm : 1 ≤ m) :
    mate_value (-m) = -(10 + 10 / (m : ℚ)) := by
  have h0 : -m < 0 := by omega
  have hmax : max 1 |(-m)| = m := by
    rw [abs_neg, abs_of_nonneg (by omega : (0 : ℤ) ≤ m)]
    exact max_eq_right hm
  simp only [mate_value, hmax, if_pos h0]

theorem mate_value_pos {m : ℤ} (hm : 1 ≤ m) : 0 < mate_value m := by
  rw [mate_value_eq hm]
  have hq : (0 : ℚ) < (m : ℚ) := by exact_mod_cast (by omega : (0 : ℤ) < m)
  have hd : (0 : ℚ) < 10 / (m : ℚ) := div_pos (by norm_num) hq
  linarith

theorem mate_value_neg_neg {m : ℤ} (hm : 1 ≤ m) : mate_value (-m) < 0 := by
  rw [mate_value_neg_eq hm]
  have hq : (0 : ℚ) < (m : ℚ) := by exact_mod_cast (by omega : (0 : ℤ) < m)
  have hd : (0 : ℚ) < 10 / (m : ℚ) := div_pos (by norm_num) hq
  linarith

/-! ## Helper lemmas on the classifier -/

theorem classify_to_mate_favor (ce pe : ℚ) (h : 0 < ce) :
    classify_move ce pe true false = "Best" := by
  show (if ce > 0 then "Best" else "Blunder") = "Best"
  rw [if_pos h]

theorem classify_to_mate_against (ce pe : ℚ) (h : ce ≤ 0) :
    classify_move ce pe true false = "Blunder" := by
  show (if ce > 0 then "Best" else "Blunder") = "Blunder"
  rw [if_neg (not_lt.2 h)]

theorem classify_from_mate_favor (ce pe : ℚ) (h : 0 < pe) :
    classify_move ce pe false true = "Blunder" := by
  show (if pe > 0 then "Blunder" else "Best") = "Blunder"
  rw [if_pos h]

theorem classify_from_mate_against (ce pe : ℚ) (h : pe ≤ 0) :
    classify_move ce pe false true = "Best" := by
  show (if pe > 0 then "Blunder" else "Best") = "Best"
  rw [if_neg (not_lt.2 h)]

theorem classify_nonmate_eq_table (ce pe : ℚ) :
    classify_move ce pe false false =
      win_prob_delta_table (eval_to_win_probability (some (pe : ℝ)) -
        eval_to_win_probability (some (ce : ℝ))) := rfl

theorem classify_matemate_eq_table (ce pe : ℚ) :
    classify_move ce pe true true =
      win_prob_delta_table (eval_to_win_probability (some (pe : ℝ)) -
        eval_to_win_probability (some (ce : ℝ))) := rfl

theorem table_best {d : ℝ} (h : d ≤ 0) : win_prob_delta_table d = "Best" := by
  simp only [win_prob_delta_table]
  rw [if_pos h]

theorem table_excellent {d : ℝ} (h1 : 0 < d) (h2 : d ≤ 0.02) :
    win_prob_delta_table d = "Excellent" := by
  simp only [win_prob_delta_table]
  rw [if_neg (by intro h3; linarith), if_pos ⟨h1, h2⟩]

theorem table_good {d : ℝ} (h1 : 0.02 < d) (h2 : d ≤ 0.05) :
    win_prob_delta_table d = "Good" := by
  simp only [win_prob_delta_table]
  rw [if_neg (by intro h3; linarith), if_neg (by rintro ⟨h3, h4⟩; linarith),
    if_pos ⟨h1, h2⟩]

theorem table_inaccuracy {d : ℝ} (h1 : 0.05 < d) (h2 : d ≤ 0.10) :
    win_prob_delta_table d = "Inaccuracy" := by
  simp only [win_prob_delta_table]
  rw [if_neg (by intro h3; linarith), if_neg (by rintro ⟨h3, h4⟩; linarith),
    if_neg (by rintro ⟨h3, h4⟩; linarith), if_pos ⟨h1, h2⟩]

theorem table_mistake {d : ℝ} (h1 : 0.10 < d) (h2 : d ≤ 0.20) :
    win_prob_delta_table d = "Mistake" := by
  simp only [win_prob_delta_table]
  rw [if_neg (by intro h3; linarith), if_neg (by rintro ⟨h3, h4⟩; linarith),
    if_neg (by rintro ⟨h3, h4⟩; linarith), if_neg (by rintro ⟨h3, h4⟩; linarith),
    if_pos ⟨h1, h2⟩]

theorem table_blunder {d : ℝ} (h1 : 0.20 < d) :
    win_prob_delta_table d = "Blunder" := by
  simp only [win_prob_delta_table]
  rw [if_neg (by intro h3; linarith), if_neg (by rintro ⟨h3, h4⟩; linarith),
    if_neg (by rintro ⟨h3, h4⟩; linarith), if_neg (by rintro ⟨h3, h4⟩; linarith),
    if_neg (by rintro ⟨h3, h4⟩; linarith)]

/-! ## Claim C1 -/

/-- C1 counterexample: the win-probability model applied to the encoded
mate-in-3 score favoring the evaluated side does not return exactly 1.0,
and applied to the mate-in-3 score against the evaluated side it does not
return exactly 0.0 -- there is no mate special case in the function. -/
theorem mate_win_probability_not_extreme_cex :
    eval_to_win_probability (some ((mate_value 3 : ℚ) : ℝ)) ≠ 1 ∧
    eval_to_win_probability (some ((mate_value (-3) : ℚ) : ℝ)) ≠ 0 :=
  ⟨ne_of_lt (win_prob_lt_one _), ne_of_gt (win_prob_pos _)⟩

/-- C1 amended: the win-probability model has no mate branch; it feeds the
saturated mate score through the logistic, giving a value strictly between
0.5 and 1 for mates favoring the evaluated side and strictly between 0 and
0.5 for mates against, never exactly 1.0 or 0.0. -/
theorem mate_win_probability_strictly_inside (m : ℤ) (hm : 1 ≤ m) :
    1 / 2 < eval_to_win_probability (some ((mate_value m : ℚ) : ℝ)) ∧
    eval_to_win_probability (some ((mate_value m : ℚ) : ℝ)) < 1 ∧
    0 < eval_to_win_probability (some ((mate_value (-m) : ℚ) : ℝ)) ∧
    eval_to_win_probability (some ((mate_value (-m) : ℚ) : ℝ)) < 1 / 2 := by
  have hp : (0 : ℝ) < ((mate_value m : ℚ) : ℝ) := by exact_mod_cast mate_value_pos hm
  have hn : ((mate_value (-m) : ℚ) : ℝ) < 0 := by exact_mod_cast mate_value_neg_neg hm
  exact ⟨win_prob_gt_half hp, win_prob_lt_one _, win_prob_pos _, win_prob_lt_half hn⟩

theorem mate_win_probability_strictly_inside_witness :
    1 / 2 < eval_to_win_probability (some ((mate_value 3 : ℚ) : ℝ)) ∧
    eval_to_win_probability (some ((mate_value 3 : ℚ) : ℝ)) < 1 ∧
    0 < eval_to_win_probability (some ((mate_value (-3) : ℚ) : ℝ)) ∧
    eval_to_win_probability (some ((mate_value (-3) : ℚ) : ℝ)) < 1 / 2 :=
  mate_win_probability_strictly_inside 3 (by norm_num)

/-! ## Claim C3 -/

/-- C3 counterexample: an absent evaluation is silently replaced by the
neutral win probability 0.5 (blunder_detection.py lines 86-87). -/
theorem missing_eval_replaced_by_half :
    eval_to_win_probability none = 0.5 := rfl

/-- C3 amended: unavailable evaluations are not always surfaced as
failures: the win-probability model substitutes the neutral 0.5 for an
absent evaluation, and the remote strategy substitutes score 0 for a
missing evaluation field on a successful payload; only an unsuccessful
payload or a failed request propagate None. -/
theorem failure_default_substitutions :
    eval_to_win_probability none = 0.5 ∧
    (∀ data : ApiResponse, data.success = true → data.evaluation = none →
      ∀ r : RemoteEvalData, get_stockfish_evaluation (some data) = some r → r.eval = 0) ∧
    (∀ data : ApiResponse, data.success = false →
      get_stockfish_evaluation (some data) = none) ∧
    get_stockfish_evaluation none = none := by
  refine ⟨rfl, ?_, ?_, rfl⟩
  · intro data hs he r hr
    simp only [get_stockfish_evaluation, hs, if_true] at hr
    cases hsp : (pySplit (data.bestmove.getD "")).get? 1 with
    | none =>
      rw [hsp] at hr
      exact absurd hr (by simp)
    | some bm =>
      rw [hsp] at hr
      simp only [Option.some.injEq] at hr
      rw [← hr]
      simp [he]
  · intro data hs
    simp [get_stockfish_evaluation, hs]

theorem failure_default_substitutions_witness :
    get_stockfish_evaluation (some ⟨false, none, none, none⟩) = none :=
  failure_default_substitutions.2.2.1 ⟨false, none, none, none⟩ rfl

/-! ## Claim C7 -/

/-- C7: the four mate-transition rules are applied before any
probability-swing computation: into a mate favoring the mover is Best,
into a mate against the mover is Blunder, out of a mate the mover had is
Blunder, out of a mate against the mover is Best; in particular a previous
non-mate +1.2 with a current mate-in-m against the mover is Blunder. -/
theorem classify_mate_transition_rules :
    (∀ ce pe : ℚ, 0 < ce → classify_move ce pe true false = "Best") ∧
    (∀ ce pe : ℚ, ce ≤ 0 → classify_move ce pe true false = "Blunder") ∧
    (∀ ce pe : ℚ, 0 < pe → classify_move ce pe false true = "Blunder") ∧
    (∀ ce pe : ℚ, pe ≤ 0 → classify_move ce pe false true = "Best") ∧
    (∀ m : ℤ, 1 ≤ m → classify_move (mate_value (-m)) (12 / 10) true false = "Blunder") :=
  ⟨classify_to_mate_favor, classify_to_mate_against, classify_from_mate_favor,
    classify_from_mate_against,
    fun _ hm => classify_to_mate_against _ _ (le_of_lt (mate_value_neg_neg hm))⟩

theorem classify_mate_transition_rules_witness :
    classify_move (mate_value (-3)) (12 / 10) true false = "Blunder" :=
  classify_mate_transition_rules.2.2.2.2 3 (by norm_num)

/-! ## Claim C8 -/

/-- C8: on non-mate evaluation pairs the classifier is exactly the fixed
threshold table on delta = winProbability(previous) - winProbability(current),
every boundary belongs to the lower-severity bucket, and in particular
delta = 0.05 is Good while delta = 0.0500001 is Inaccuracy. -/
theorem classify_nonmate_threshold_buckets :
    (∀ ce pe : ℚ, classify_move ce pe false false =
      win_prob_delta_table (eval_to_win_probability (some (pe : ℝ)) -
        eval_to_win_probability (some (ce : ℝ)))) ∧
    (∀ d : ℝ, d ≤ 0 → win_prob_delta_table d = "Best") ∧
    (∀ d : ℝ, 0 < d → d ≤ 0.02 → win_prob_delta_table d = "Excellent") ∧
    (∀ d : ℝ, 0.02 < d → d ≤ 0.05 → win_prob_delta_table d = "Good") ∧
    (∀ d : ℝ, 0.05 < d → d ≤ 0.10 → win_prob_delta_table d = "Inaccuracy") ∧
    (∀ d : ℝ, 0.10 < d → d ≤ 0.20 → win_prob_delta_table d = "Mistake") ∧
    (∀ d : ℝ, 0.20 < d → win_prob_delta_table d = "Blunder") ∧
    win_prob_delta_table 0.05 = "Good" ∧
    win_prob_delta_table 0.0500001 = "Inaccuracy" :=
  ⟨classify_nonmate_eq_table,
    fun _ h => table_best h,
    fun _ h1 h2 => table_excellent h1 h2,
    fun _ h1 h2 => table_good h1 h2,
    fun _ h1 h2 => table_inaccuracy h1 h2,
    fun _ h1 h2 => table_mistake h1 h2,
    fun _ h1 => table_blunder h1,
    table_good (by norm_num) (by norm_num),
    table_inaccuracy (by norm_num) (by norm_num)⟩

theorem classify_nonmate_threshold_buckets_witness :
    win_prob_delta_table (-1) = "Best" :=
  classify_nonmate_threshold_buckets.2.1 (-1) (by norm_num)

/-! ## Claim C10 -/

/-- C10: when both evaluations are forced mates neither mate-transition
branch fires and the classifier grades the pair by the ordinary delta
table applied to the two saturated sentinel scores, whose magnitude is
10 + 10 / mateDistance. -/
theorem classify_mate_to_mate_uses_delta_table :
    (∀ ce pe : ℚ, classify_move ce pe true true =
      win_prob_delta_table (eval_to_win_probability (some (pe : ℝ)) -
        eval_to_win_probability (some (ce : ℝ)))) ∧
    (∀ m : ℤ, 1 ≤ m →
      mate_value m = 10 + 10 / (m : ℚ) ∧ mate_value (-m) = -(10 + 10 / (m : ℚ))) :=
  ⟨classify_matemate_eq_table, fun _ hm => ⟨mate_value_eq hm, mate_value_neg_eq hm⟩⟩

theorem classify_mate_to_mate_uses_delta_table_witness :
    mate_value 3 = 10 + 10 / (3 : ℚ) ∧ mate_value (-3) = -(10 + 10 / (3 : ℚ)) :=
  classify_mate_to_mate_uses_delta_table.2 3 (by norm_num)

/-! ## Helper lemmas on the analyzer and the replayer -/

theorem analyzeLoop_none_of_failure {B : Type} (ev : B → Option LocalEvalData) :
    ∀ (ps : List (PosInfo B)) (previous_eval : ℚ) (previous_is_mate is_first : Bool)
      (i : ℕ) (q : PosInfo B), ps.get? i = some q → ev q.fen = none →
      analyzeLoop ev ps previous_eval previous_is_mate is_first = none := by
  intro ps
  induction ps with
  | nil => intro _ _ _ i q hq _; simp at hq
  | cons p rest ih =>
    intro prev pm first i q hq hev
    cases i with
    | zero =>
      rw [List.get?_cons_zero, Option.some.injEq] at hq
      subst hq
      simp only [analyzeLoop]
      rw [hev]
    | succ n =>
      rw [List.get?_cons_succ] at hq
      cases hev2 : ev p.fen with
      | none => simp only [analyzeLoop, hev2]
      | some d =>
        simp only [analyzeLoop, hev2]
        rw [ih (if p.player = Player.black then -d.eval else d.eval) d.is_mate false
          n q hq hev]

theorem applyMoves_append_failure {B : Type} (step : B → String → Option B)
    (bad : String) (post : List String) :
    ∀ (pre : List String) (b0 : B),
      (applyMoves step b0 pre).length = pre.length →
      step ((applyMoves step b0 pre).getLastD b0) bad = none →
      applyMoves step b0 (pre ++ bad :: post) = applyMoves step b0 pre := by
  intro pre
  induction pre with
  | nil =>
    intro b0 _ hbad
    simp only [applyMoves, List.getLastD] at hbad
    simp only [List.nil_append, applyMoves, hbad]
  | cons a pre2 ih =>
    intro b0 hpre hbad
    cases hstep : step b0 a with
    | none =>
      simp only [applyMoves, hstep] at hpre
      simp at hpre
    | some b1 =>
      simp only [applyMoves, List.cons_append, hstep, List.length_cons] at hpre hbad ⊢
      rw [List.getLastD_cons] at hbad
      exact congrArg (b1 :: ·) (ih b1 (by omega) hbad)

/-! ## Claim C2 -/

/-- C2: evaluation of the code at the failing input.  A one-ply game (White
plays the only move) with the engine reporting relative score +1 for the
position after the move: the relative score favours the side to move there,
which is Black, so the move was bad for the mover -- the mover-perspective
score is -1.  Yet the analyzer stores +1 for this White ply, because the
sign adjustment negates only Black's plies; so the stored evaluation does
not satisfy positive = good for the mover. -/
theorem analyzer_keeps_opponent_perspective_on_white_ply :
    (analyze_game_for_blunders (fun n _ => some (n + 1)) (0 : ℕ)
        (fun _ => some ⟨1, none, false, none⟩) ["e4"]).map
      (fun rs => rs.map (fun r => (r.player, r.eval))) =
      some [(Player.white, 1)] ∧
    mover_perspective 1 = -1 :=
  ⟨rfl, rfl⟩

/-! ## Claim C4 -/

/-- C4 counterexample: two evaluation sources that fail at different plies
of the same two-ply game (the first fails already on the position after
ply 1, the second succeeds there and fails on the position after ply 2)
produce the identical result None; the failure value returned by the
analyzer therefore carries no failing ply index, contradicting the claimed
AnalysisFailed result that references the ply. -/
theorem analyze_failure_carries_no_ply_index :
    analyze_game_for_blunders (fun n _ => some (n + 1)) (0 : ℕ)
        (fun _ => (none : Option LocalEvalData)) ["e4", "e5"] =
      analyze_game_for_blunders (fun n _ => some (n + 1)) (0 : ℕ)
        (fun b => if b = 1 then some ⟨1, none, false, none⟩ else none) ["e4", "e5"] ∧
    (fun _ : ℕ => (none : Option LocalEvalData)) 1 = none ∧
    (fun b : ℕ => if b = 1 then some (⟨1, none, false, none⟩ : LocalEvalData) else none) 1 ≠
      none ∧
    (fun b : ℕ => if b = 1 then some (⟨1, none, false, none⟩ : LocalEvalData) else none) 2 =
      none := by
  refine ⟨rfl, rfl, by decide, rfl⟩

/-- C4 amended: if the evaluation source fails on any analysed ply, the
whole analysis returns the bare failure None -- no partial record list is
ever returned -- but None identifies no failing ply. -/
theorem analyze_fails_on_eval_failure {B : Type} (step : B → String → Option B)
    (b0 : B) (ev : B → Option LocalEvalData) (moves_list : List String)
    (i : ℕ) (q : PosInfo B)
    (hq : (process_game_for_analysis step b0 moves_list).get? i = some q)
    (hev : ev q.fen = none) :
    analyze_game_for_blunders step b0 ev moves_list = none :=
  analyzeLoop_none_of_failure ev _ 0 false true i q hq hev

theorem analyze_fails_on_eval_failure_witness :
    analyze_game_for_blunders (fun n _ => some (n + 1)) (0 : ℕ)
      (fun _ => (none : Option LocalEvalData)) ["e4"] = none :=
  analyze_fails_on_eval_failure _ _ _ _ 0 ⟨1, "e4", Player.white, 1⟩ rfl rfl

/-! ## Claim C5 -/

/-- C5 counterexample: replaying an input whose second move is illegal
yields a value identical to replaying the clean one-move input, so the
caller receives no MoveParseError (no offending move text, no index):
the partial position list is indistinguishable from a complete one. -/
theorem replay_error_not_signalled :
    convert_moves_to_positions
        (fun (n : ℕ) (m : String) => if m = "bad" then none else some (n + 1)) 0
        ["a", "bad"] =
      convert_moves_to_positions
        (fun (n : ℕ) (m : String) => if m = "bad" then none else some (n + 1)) 0
        ["a"] := rfl

/-- C5 amended: on the first unparseable or illegal move the replay stops
and returns the standard initial position followed by exactly the
positions produced before the failure, equal to the replay of the
successful prefix alone; no MoveParseError value is part of the result. -/
theorem replay_stops_at_first_failure {B : Type} (step : B → String → Option B)
    (b0 : B) (pre : List String) (bad : String) (post : List String)
    (hpre : (applyMoves step b0 pre).length = pre.length)
    (hbad : step ((applyMoves step b0 pre).getLastD b0) bad = none) :
    convert_moves_to_positions step b0 (pre ++ bad :: post) =
      convert_moves_to_positions step b0 pre :=
  congrArg (b0 :: ·) (applyMoves_append_failure step bad post pre b0 hpre hbad)

theorem replay_stops_at_first_failure_witness :
    convert_moves_to_positions
        (fun (n : ℕ) (m : String) => if m = "bad" then none else some (n + 1)) 0
        (["a"] ++ "bad" :: ["c"]) =
      convert_moves_to_positions
        (fun (n : ℕ) (m : String) => if m = "bad" then none else some (n + 1)) 0
        ["a"] :=
  replay_stops_at_first_failure _ 0 ["a"] "bad" ["c"] rfl rfl

/-! ## Claim C6 -/

/-- C6 counterexample: for the same mate-in-3 assessment the two
strategies do not normalise to the same shape: the local dictionary has
the four keys eval, mate_in, is_mate, bestmove and the saturated score
40/3, while the remote dictionary has only three keys (no is_mate) and
carries the service value defaulted to 0 instead of the sentinel. -/
theorem strategies_not_same_shape_cex :
    (local_eval_dict (get_stockfish_evaluation_local (EngineScore.mate 3)
        (some "h5f7"))).map Prod.fst = [ "eval", "mate_in", "is_mate", "bestmove" ] ∧
    (get_stockfish_evaluation (some ⟨true, none, some 3, some "bestmove h5f7"⟩)).map
        (fun r => (remote_eval_dict r).map Prod.fst) =
      some [ "eval", "mate_in", "bestmove" ] ∧
    (get_stockfish_evaluation (some ⟨true, none, some 3, some "bestmove h5f7"⟩)).map
        RemoteEvalData.eval = some 0 ∧
    (get_stockfish_evaluation_local (EngineScore.mate 3) (some "h5f7")).eval = 40 / 3 ∧
    (0 : ℚ) ≠ 40 / 3 := by
  refine ⟨rfl, rfl, rfl, ?_, by norm_num⟩
  show mate_value 3 = 40 / 3
  rw [mate_value_eq (by norm_num)]
  norm_num

/-- C6 amended: the strategies do not return the same Evaluation shape.
The local strategy always produces the four keys eval, mate_in, is_mate,
bestmove with mate scores saturated to magnitude 10 + 10/d; the remote
strategy, when it succeeds, produces only eval, mate_in, bestmove -- no
is_mate flag -- and passes the service's evaluation field through
unsaturated, defaulting to 0 when absent. -/
theorem strategies_shapes_differ :
    (∀ (score : EngineScore) (bm : Option String),
      (local_eval_dict (get_stockfish_evaluation_local score bm)).map Prod.fst =
        [ "eval", "mate_in", "is_mate", "bestmove" ]) ∧
    (∀ (resp : ApiResponse) (r : RemoteEvalData),
      get_stockfish_evaluation (some resp) = some r →
      (remote_eval_dict r).map Prod.fst = [ "eval", "mate_in", "bestmove" ] ∧
      r.eval = resp.evaluation.getD 0) ∧
    (∀ m : ℤ, 1 ≤ m →
      (get_stockfish_evaluation_local (EngineScore.mate m) none).eval =
        10 + 10 / (m : ℚ) ∧
      (get_stockfish_evaluation_local (EngineScore.mate m) none).is_mate = true) ∧
    ([ "eval", "mate_in", "is_mate", "bestmove" ] : List String) ≠
      [ "eval", "mate_in", "bestmove" ] := by
  refine ⟨?_, ?_, ?_, by decide⟩
  · intro score bm
    cases score <;> rfl
  · intro resp r hr
    simp only [get_stockfish_evaluation] at hr
    by_cases hs : resp.success
    · simp only [hs, if_true] at hr
      cases hsp : (pySplit (resp.bestmove.getD "")).get? 1 with
      | none =>
        rw [hsp] at hr
        exact absurd hr (by simp)
      | some bm =>
        rw [hsp] at hr
        simp only [Option.some.injEq] at hr
        rw [← hr]
        exact ⟨rfl, rfl⟩
    · simp only [hs, if_false] at hr
      exact absurd hr (by simp)
  · intro m hm
    exact ⟨mate_value_eq hm, rfl⟩

theorem strategies_shapes_differ_witness :
    (get_stockfish_evaluation_local (EngineScore.mate 3) none).eval =
      10 + 10 / (3 : ℚ) ∧
    (get_stockfish_evaluation_local (EngineScore.mate 3) none).is_mate = true :=
  strategies_shapes_differ.2.2.1 3 (by norm_num)

end GameOfThrows
